import Mathlib

/-!
Shallow embedding of the sensor-fusion / session-tracking core of
AvoidRickshaw (src/src/data.c).

Doubles are modelled as rationals; the C literals 0.2 and 0.0001 become
the exact rationals 1/5 and 1/10000, DBL_MAX becomes the exact value of
the largest finite IEEE-754 double.  The platform distance service
(location_manager_get_distance) is an oracle parameter returning
Option so that a transient platform error can be modelled.  The weight
preference (read by calorieBurner) is a run-level parameter holding the
resolved weight.  Observer callbacks are modelled as emitted
notification values; in the application all four callbacks are
registered at startup before tracking begins.
-/

namespace AvoidRickshaw

/-- C fabs on rationals. -/
def rabs (q : ℚ) : ℚ := if q < 0 then -q else q

/-- Floor of a rational, in kernel-reducible form. -/
def rat_floor (q : ℚ) : ℤ := q.num / (q.den : ℤ)

/-- C cast from double to int: truncation toward zero. -/
def c_int_of_double (q : ℚ) : ℤ := if 0 ≤ q then rat_floor q else -(rat_floor (-q))

/-- TRESHOLD constant of data.c (0.2). -/
def TRESHOLD : ℚ := 1 / 5

/-- MAX_ACCEL_INIT_VALUE constant of data.c. -/
def MAX_ACCEL_INIT_VALUE : ℚ := 1000

/-- DOUBLE_COMPARIZON_THRESHOLD constant of data.c (0.0001). -/
def DOUBLE_COMPARIZON_THRESHOLD : ℚ := 1 / 10000

/-- The largest finite IEEE-754 double, the value of the DBL_MAX macro. -/
def DBL_MAX : ℚ := 2 ^ 1024 - 2 ^ 971

/-- LAT_UNINITIATED sentinel of data.c. -/
def LAT_UNINITIATED : ℚ := DBL_MAX

/-- LONG_UNINITIATED sentinel of data.c. -/
def LONG_UNINITIATED : ℚ := DBL_MAX

/-- The mutable fields of the static struct data_info s_info of data.c.
The two callback-handle fields location_manager and
acceleration_listener are modelled as booleans recording whether the
corresponding platform handle was created (non-NULL). -/
structure data_info where
  location_manager : Bool
  total_distance : ℚ
  prev_latitude : ℚ
  prev_longitude : ℚ
  acceleration_listener : Bool
  prev_acc_av : ℚ
  init_acc_av : ℚ
  steps_count : ℤ
  start_time : ℚ
  calories : ℚ
deriving DecidableEq, Repr

/-- The static initializer of s_info, with the success of the two
platform handle acquisitions (data_initialize) as parameters. -/
def s_info_init (locOk accelOk : Bool) : data_info :=
  { location_manager := locOk
    total_distance := 0
    prev_latitude := LAT_UNINITIATED
    prev_longitude := LONG_UNINITIATED
    acceleration_listener := accelOk
    prev_acc_av := MAX_ACCEL_INIT_VALUE
    init_acc_av := MAX_ACCEL_INIT_VALUE
    steps_count := 0
    start_time := 0
    calories := 0 }

/-- Observer notifications and the database insert, i.e. every call the
core makes into the view / persistence collaborators. -/
inductive Notif where
  | position (total : ℚ)
  | steps (n : ℤ)
  | fare (n : ℤ)
  | calorie (v : ℚ)
  | dbInsert (distance : ℚ) (steps : ℤ) (calories : ℚ) (fare : ℤ)
deriving DecidableEq, Repr

/-- Oracle for location_manager_get_distance: arguments in source order
(new latitude, new longitude, previous latitude, previous longitude);
none models a LOCATIONS_ERROR return. -/
def DistFn : Type := ℚ → ℚ → ℚ → ℚ → Option ℚ

/-- count_fare of data.c.  The C assignment
fare = (int) baseFare + ((total_distance / 1000) - baseDistance) * farePerUnitDistance
computes in double and truncates on the assignment to int.  The fare
callback is invoked unconditionally. -/
def count_fare (s : data_info) : ℤ × List Notif :=
  let fare : ℤ :=
    if s.total_distance > 1000 then
      c_int_of_double (10 + (s.total_distance / 1000 - 1) * 5)
    else 0
  (fare, [Notif.fare fare])

/-- calorieBurner of data.c.  weight is the preference value resolved by
preference_is_existing / preference_get_double (70 when absent); now is
the ecore_time_get reading at the call. -/
def calorieBurner (weight now : ℚ) (s : data_info) : data_info × List Notif :=
  let tempDistance := s.total_distance / 1000
  let elapsedTime := (now - s.start_time) / 3600
  let cal := 215 / 10000 * tempDistance * tempDistance * tempDistance
      - 1765 / 10000 * tempDistance * tempDistance + 8710 / 10000 * tempDistance
      + 14577 / 10000 * weight * elapsedTime
  ({ s with calories := cal }, [Notif.calorie cal])

/-- The first-call test of _pos_updated_cb: both stored coordinates are
within DOUBLE_COMPARIZON_THRESHOLD of their uninitialized sentinels. -/
abbrev posSeeding (s : data_info) : Prop :=
  rabs (s.prev_latitude - LAT_UNINITIATED) < DOUBLE_COMPARIZON_THRESHOLD ∧
  rabs (s.prev_longitude - LONG_UNINITIATED) < DOUBLE_COMPARIZON_THRESHOLD

/-- _pos_updated_cb of data.c.  The accuracy query is a logged read only
(its use is commented out in the source) and is not modelled. -/
def pos_updated_cb (dist : DistFn) (weight latitude longitude now : ℚ)
    (s : data_info) : data_info × List Notif :=
  if posSeeding s then
    ({ s with prev_latitude := latitude, prev_longitude := longitude }, [])
  else
    match dist latitude longitude s.prev_latitude s.prev_longitude with
    | none => (s, [])
    | some distance =>
      let s1 := { s with
        total_distance := s.total_distance + distance
        prev_latitude := latitude
        prev_longitude := longitude }
      let fn := count_fare s1
      let cb := calorieBurner weight now s1
      (cb.1, Notif.position s1.total_distance :: fn.2 ++ cb.2)

/-- The first-sample test of _accel_cb: the stored initial average is
within DOUBLE_COMPARIZON_THRESHOLD of MAX_ACCEL_INIT_VALUE. -/
abbrev accelSeeding (s : data_info) : Prop :=
  rabs (s.init_acc_av - MAX_ACCEL_INIT_VALUE) < DOUBLE_COMPARIZON_THRESHOLD

/-- The current_acc_av computation of _accel_cb. -/
def current_acc_av (x y z : ℚ) : ℚ := (rabs x + rabs y + rabs z) / 3

/-- _accel_cb of data.c. -/
def accel_cb (x y z : ℚ) (s : data_info) : data_info × List Notif :=
  let av := current_acc_av x y z
  if accelSeeding s then
    ({ s with init_acc_av := av, prev_acc_av := av }, [])
  else
    if s.prev_acc_av > s.init_acc_av ∧ s.init_acc_av - av > TRESHOLD then
      ({ s with steps_count := s.steps_count + 1, prev_acc_av := av },
        [Notif.steps (s.steps_count + 1)])
    else
      ({ s with prev_acc_av := av }, [])

/-- _data_save_db of data.c: count_fare fires the fare callback first
(unconditionally), then the record is inserted only under the guard
steps > 0 and distance > 0.  The float casts on distance and calories
are the identity in this rational model. -/
def data_save_db (s : data_info) : List Notif :=
  let fn := count_fare s
  if s.steps_count > 0 ∧ s.total_distance > 0 then
    fn.2 ++ [Notif.dbInsert s.total_distance s.steps_count s.calories fn.1]
  else fn.2

/-- _data_distance_tracker_stop of data.c: early return when the
location manager was never created; otherwise a failure of
location_manager_stop is only logged, then the session is saved and the
counters are reset.  prev_latitude and prev_longitude are not touched. -/
def data_distance_tracker_stop (s : data_info) : data_info × List Notif :=
  if s.location_manager then
    let ns := data_save_db s
    ({ s with total_distance := 0, steps_count := 0, calories := 0 }, ns)
  else (s, [])

/-- _data_acceleration_sensor_stop of data.c: early return when the
listener was never created; on success the acceleration calibration
state is reset to its sentinel.  sensor_listener_stop is modelled as
succeeding. -/
def data_acceleration_sensor_stop (s : data_info) : data_info :=
  if s.acceleration_listener then
    { s with init_acc_av := MAX_ACCEL_INIT_VALUE, prev_acc_av := MAX_ACCEL_INIT_VALUE }
  else s

/-- data_tracking_stop of data.c. -/
def data_tracking_stop (s : data_info) : data_info × List Notif :=
  let ts := data_distance_tracker_stop s
  (data_acceleration_sensor_stop ts.1, ts.2)

/-- data_tracking_start of data.c.  _data_distance_tracker_start retries
_data_distance_tracker_init when the manager is absent; retryInit is the
success of that attempt.  _data_acceleration_sensor_start changes no
modelled state.  now is the ecore_time_get reading.  When steps_count is
zero the three callbacks are re-invoked in source order with
steps_count, total_distance and the literal 0. -/
def data_tracking_start (retryInit : Bool) (now : ℚ) (s : data_info) :
    data_info × List Notif :=
  let s1 := if s.location_manager then s else { s with location_manager := retryInit }
  let s2 := { s1 with start_time := now }
  if s2.steps_count = 0 then
    (s2, [Notif.steps s2.steps_count, Notif.position s2.total_distance, Notif.fare 0])
  else (s2, [])

/-- External events driving the core: user start / stop actions and the
two sensor callbacks.  Position and acceleration events only reach the
core when the corresponding platform handle was created, because the
callbacks are registered inside the respective init functions. -/
inductive Ev where
  | start (retryInit : Bool) (now : ℚ)
  | stop
  | pos (latitude longitude now : ℚ)
  | accel (x y z : ℚ)
deriving DecidableEq, Repr

/-- One event of the tracking core. -/
def machine_step (dist : DistFn) (weight : ℚ) (s : data_info) :
    Ev → data_info × List Notif
  | Ev.start r now => data_tracking_start r now s
  | Ev.stop => data_tracking_stop s
  | Ev.pos la lo now =>
      if s.location_manager then pos_updated_cb dist weight la lo now s else (s, [])
  | Ev.accel x y z =>
      if s.acceleration_listener then accel_cb x y z s else (s, [])

/-- Iterated machine_step, discarding notifications. -/
def machine_run (dist : DistFn) (weight : ℚ) : data_info → List Ev → data_info
  | s, [] => s
  | s, e :: es => machine_run dist weight (machine_step dist weight s e).1 es

/-- A state whose total_distance field is d, used to state claims about
count_fare as a function of the accumulated distance. -/
def stateWithDistance (d : ℚ) : data_info :=
  { s_info_init true true with total_distance := d }

/-- An oracle that always reports a distance of 100 meters. -/
def dist100 : DistFn := fun _ _ _ _ => some 100

/-- An oracle that always reports a distance of 500 meters. -/
def dist500 : DistFn := fun _ _ _ _ => some 500

/-- An oracle that always fails (LOCATIONS_ERROR). -/
def distNone : DistFn := fun _ _ _ _ => none

/-- An oracle returning the L1 displacement of the coordinate pairs:
enough to tell pairs of fixes apart in counterexamples. -/
def distAbs : DistFn := fun la lo pla plo => some (rabs (la - pla) + rabs (lo - plo))

/-- Iterated accelerometer callback, state part only. -/
def accel_iter (s : data_info) : List (ℚ × ℚ × ℚ) → data_info
  | [] => s
  | e :: es => accel_iter (accel_cb e.1 e.2.1 e.2.2 s).1 es

/-- Invariant of the accelerometer state: whenever the stored initial
average is inside the sentinel window, it equals the stored previous
average.  It holds after every _accel_cb call. -/
def accelInv (s : data_info) : Prop :=
  accelSeeding s → s.prev_acc_av = s.init_acc_av

/-- Sum of the oracle distances over consecutive fixes, seeded at p:
the quantity the spec calls the sum of deltas between consecutive
fixes. -/
def pairSum (dist : DistFn) : ℚ × ℚ → List (ℚ × ℚ) → ℚ
  | _, [] => 0
  | p, q :: qs => (dist q.1 q.2 p.1 p.2).getD 0 + pairSum dist q qs

/-- Position events for a list of fixes (event time fixed at 0). -/
def posEvents (fixes : List (ℚ × ℚ)) : List Ev :=
  fixes.map fun q => Ev.pos q.1 q.2 0

/-- A geographically valid coordinate: latitude within 90 degrees and
longitude within 180 degrees in absolute value. -/
def validCoord (q : ℚ × ℚ) : Prop := rabs q.1 ≤ 90 ∧ rabs q.2 ≤ 180

/-- Whether a notification list contains a database insert. -/
def hasDbInsert (l : List Notif) : Bool :=
  l.any fun n => match n with | Notif.dbInsert _ _ _ _ => true | _ => false

/-- Trace for the C1 counterexample: one full session with two fixes,
then stop and a second start. -/
def c1_trace : List Ev :=
  [Ev.start false 0, Ev.pos 10 20 1, Ev.pos 10 21 2, Ev.stop, Ev.start false 3]

/-- Trace for the C2 counterexample: GPS unavailable at initialization,
a session of three accelerometer samples producing one step, then
stop. -/
def c2_trace : List Ev :=
  [Ev.start false 0, Ev.accel 1 1 1, Ev.accel (3/2) (3/2) (3/2),
    Ev.accel (1/2) (1/2) (1/2), Ev.stop]

/-- Trace for the C5 counterexample: a full session of two fixes, stop,
then a second session of two fixes. -/
def c5_trace : List Ev :=
  [Ev.start false 0, Ev.pos 0 0 1, Ev.pos 0 1 2, Ev.stop,
    Ev.start false 3, Ev.pos 0 5 4, Ev.pos 0 9 5]

/-- Trace for the C9 counterexample: a session that accumulates 500
meters over two fixes without any step. -/
def c9_trace : List Ev := [Ev.start false 0, Ev.pos 0 0 1, Ev.pos 0 1 2]

theorem rat_floor_eq (q : ℚ) : rat_floor q = ⌊q⌋ := Rat.floor_def.symm

theorem count_fare_eq (d : ℚ) :
    (count_fare (stateWithDistance d)).1 =
      if d > 1000 then 10 + ⌊(d / 1000 - 1) * 5⌋ else 0 := by
  simp only [count_fare, stateWithDistance, s_info_init]
  split
  · rename_i h
    have hpos : (0 : ℚ) ≤ 10 + (d / 1000 - 1) * 5 := by
      have : (1 : ℚ) < d / 1000 := by
        rw [lt_div_iff₀ (by norm_num : (0:ℚ) < 1000)]; linarith
      nlinarith
    rw [c_int_of_double, if_pos hpos, rat_floor_eq]
    have h10 : (10 : ℚ) + (d / 1000 - 1) * 5 = ((10 : ℤ) : ℚ) + (d / 1000 - 1) * 5 := by
      norm_num
    rw [h10, Int.floor_int_add]
  · rfl

/-- C3: for every accumulated distance d, count_fare returns 0 when
d ≤ 1000 and 10 + floor((d / 1000 - 1) * 5) when d > 1000; in
particular it returns 0 at 999 and 1000, 15 at 2000 and 20 at 3000. -/
theorem count_fare_spec (d : ℚ) :
    ((count_fare (stateWithDistance d)).1 =
      if d > 1000 then 10 + ⌊(d / 1000 - 1) * 5⌋ else 0) ∧
    (count_fare (stateWithDistance 999)).1 = 0 ∧
    (count_fare (stateWithDistance 1000)).1 = 0 ∧
    (count_fare (stateWithDistance 2000)).1 = 15 ∧
    (count_fare (stateWithDistance 3000)).1 = 20 := by
  refine ⟨count_fare_eq d, ?_, ?_, ?_, ?_⟩ <;> rw [count_fare_eq] <;> norm_num

theorem rabs_lt_iff (a e : ℚ) : rabs a < e ↔ -e < a ∧ a < e := by
  unfold rabs
  split <;> constructor <;> intro h
  · exact ⟨by linarith, by linarith⟩
  · linarith [h.1]
  · exact ⟨by linarith, h⟩
  · exact h.2

theorem DBL_MAX_large : (1000001 : ℚ) < DBL_MAX := by norm_num [DBL_MAX]

theorem posSeeding_init (l a : Bool) : posSeeding (s_info_init l a) := by
  constructor <;>
    simp [s_info_init, rabs, LAT_UNINITIATED, LONG_UNINITIATED,
      DOUBLE_COMPARIZON_THRESHOLD]

theorem not_posSeeding_of_le {s : data_info} (h : s.prev_latitude ≤ 1000000) :
    ¬posSeeding s := by
  intro hs
  have h1 := (rabs_lt_iff _ _).mp hs.1
  have := DBL_MAX_large
  have : LAT_UNINITIATED = DBL_MAX := rfl
  rw [DOUBLE_COMPARIZON_THRESHOLD] at h1
  have hlat : LAT_UNINITIATED - 1 / 10000 < s.prev_latitude := by linarith [h1.1]
  rw [this] at hlat
  linarith [DBL_MAX_large]

theorem accelSeeding_iff (s : data_info) :
    accelSeeding s ↔
      MAX_ACCEL_INIT_VALUE - DOUBLE_COMPARIZON_THRESHOLD < s.init_acc_av ∧
      s.init_acc_av < MAX_ACCEL_INIT_VALUE + DOUBLE_COMPARIZON_THRESHOLD := by
  rw [show accelSeeding s ↔ rabs (s.init_acc_av - MAX_ACCEL_INIT_VALUE) <
    DOUBLE_COMPARIZON_THRESHOLD from Iff.rfl, rabs_lt_iff]
  constructor <;> intro h <;> exact ⟨by linarith [h.1], by linarith [h.2]⟩

/-- C1, counterexample: after a stop()-triggered reset the first fix of
the next session is not a calibration call.  With an oracle always
reporting 100 meters, the state after c1_trace has total_distance 0 and
prev_position (10, 21), and the first fix (11, 21) of the new session
raises total_distance to 100 and fires observers. -/
theorem first_fix_after_stop_not_calibration :
    (machine_run dist100 70 (s_info_init true true) c1_trace).total_distance = 0 ∧
    (machine_step dist100 70 (machine_run dist100 70 (s_info_init true true) c1_trace)
      (Ev.pos 11 21 4)).1.total_distance = 100 ∧
    (machine_step dist100 70 (machine_run dist100 70 (s_info_init true true) c1_trace)
      (Ev.pos 11 21 4)).2 ≠ [] := by
  refine ⟨?_, ?_, ?_⟩ <;>
    norm_num [c1_trace, machine_run, machine_step, data_tracking_start,
      data_tracking_stop, data_distance_tracker_stop, data_acceleration_sensor_stop,
      data_save_db, pos_updated_cb, count_fare, calorieBurner, s_info_init, dist100,
      posSeeding, accelSeeding, rabs, LAT_UNINITIATED, LONG_UNINITIATED, DBL_MAX,
      DOUBLE_COMPARIZON_THRESHOLD, MAX_ACCEL_INIT_VALUE, List.cons_ne_nil]

/-- C1 (amended): a position fix that arrives while prev_position still
holds the uninitialized sentinel (the case after module initialization;
stop() does not restore the sentinel) is a pure calibration call: the
coordinate is stored as the previous position, total_distance is
unchanged and no observer fires. -/
theorem pos_first_fix_calibration (dist : DistFn) (w la lo now : ℚ)
    (s : data_info) (h : posSeeding s) :
    pos_updated_cb dist w la lo now s =
      ({ s with prev_latitude := la, prev_longitude := lo }, []) := by
  simp only [pos_updated_cb, if_pos h]

theorem pos_first_fix_calibration_witness :
    posSeeding (s_info_init true true) ∧
    pos_updated_cb dist100 70 10 20 1 (s_info_init true true) =
      ({ s_info_init true true with prev_latitude := 10, prev_longitude := 20 }, []) := by
  have h := posSeeding_init true true
  exact ⟨h, pos_first_fix_calibration dist100 70 10 20 1 _ h⟩

theorem accelSeeding_init (l a : Bool) : accelSeeding (s_info_init l a) := by
  simp [s_info_init, accelSeeding, rabs, MAX_ACCEL_INIT_VALUE,
    DOUBLE_COMPARIZON_THRESHOLD]

theorem le_rabs_self (a : ℚ) : a ≤ rabs a := by
  unfold rabs; split <;> linarith

/-- C2, counterexample: when the location manager was never created
(GPS disabled at initialization), _data_distance_tracker_stop returns
before resetting, so a stop() at the end of a session with one detected
step leaves steps_count at 1, not 0. -/
theorem stop_without_location_manager_no_reset :
    (machine_run distNone 70 (s_info_init false true) c2_trace).steps_count = 1 ∧
    ¬((machine_run distNone 70 (s_info_init false true) c2_trace).steps_count = 0) := by
  constructor <;>
    norm_num [c2_trace, machine_run, machine_step, data_tracking_start,
      data_tracking_stop, data_distance_tracker_stop, data_acceleration_sensor_stop,
      data_save_db, accel_cb, current_acc_av, count_fare, s_info_init, distNone,
      posSeeding, accelSeeding, rabs, LAT_UNINITIATED, LONG_UNINITIATED, DBL_MAX,
      DOUBLE_COMPARIZON_THRESHOLD, MAX_ACCEL_INIT_VALUE, TRESHOLD]

/-- C2 (amended): when the location manager exists, data_tracking_stop
leaves total_distance, steps_count and calories at zero; when it was
never created the early return in _data_distance_tracker_stop skips the
reset entirely. -/
theorem stop_resets_counters (s : data_info) (h : s.location_manager = true) :
    (data_tracking_stop s).1.total_distance = 0 ∧
    (data_tracking_stop s).1.steps_count = 0 ∧
    (data_tracking_stop s).1.calories = 0 := by
  cases hA : s.acceleration_listener <;>
    simp [data_tracking_stop, data_distance_tracker_stop,
      data_acceleration_sensor_stop, h, hA]

theorem stop_resets_counters_witness :
    (s_info_init true true).location_manager = true ∧
    ((data_tracking_stop (s_info_init true true)).1.total_distance = 0 ∧
     (data_tracking_stop (s_info_init true true)).1.steps_count = 0 ∧
     (data_tracking_stop (s_info_init true true)).1.calories = 0) :=
  ⟨rfl, stop_resets_counters (s_info_init true true) rfl⟩

/-- C10, counterexample: a mid-session sample whose axis-magnitude
average is exactly 1000 (within 0.0001 of the sentinel) does not make
the detector treat the session as uncalibrated: with a session
calibrated at average 50, processing a (1000, 1000, 1000) sample leaves
init_acc_av at 50 instead of re-seeding it to the sample average.  The
re-seed test reads the stored init_acc_av, not the incoming sample. -/
theorem midsession_sentinel_sample_no_reseed :
    rabs (current_acc_av 1000 1000 1000 - MAX_ACCEL_INIT_VALUE) <
      DOUBLE_COMPARIZON_THRESHOLD ∧
    (accel_cb 1000 1000 1000 ((accel_cb 50 50 50 (s_info_init true true)).1)).1.init_acc_av
      = 50 ∧
    ¬((accel_cb 1000 1000 1000 ((accel_cb 50 50 50 (s_info_init true true)).1)).1.init_acc_av
      = current_acc_av 1000 1000 1000) := by
  refine ⟨?_, ?_, ?_⟩ <;>
    norm_num [accel_cb, current_acc_av, accelSeeding, rabs, s_info_init,
      MAX_ACCEL_INIT_VALUE, DOUBLE_COMPARIZON_THRESHOLD, TRESHOLD]

/-- C10 (amended): the sentinel collision is triggered by the stored
baseline: when the calibration sample itself has an average within
0.0001 of MAX_ACCEL_INIT_VALUE, the next sample is treated as another
calibration call — init_acc_av and prev_acc_av are re-seeded to that
average of that next sample and no step is emitted, although calibration had
already completed. -/
theorem accel_sentinel_collision (s : data_info) (cx cy cz x y z : ℚ)
    (h : accelSeeding s)
    (hc : rabs (current_acc_av cx cy cz - MAX_ACCEL_INIT_VALUE) <
      DOUBLE_COMPARIZON_THRESHOLD) :
    accel_cb x y z (accel_cb cx cy cz s).1 =
      ({ (accel_cb cx cy cz s).1 with
          init_acc_av := current_acc_av x y z,
          prev_acc_av := current_acc_av x y z }, []) := by
  have h1 : (accel_cb cx cy cz s).1 =
      { s with
          init_acc_av := current_acc_av cx cy cz
          prev_acc_av := current_acc_av cx cy cz } := by
    simp [accel_cb, h]
  rw [h1]
  have h2 : accelSeeding ({ s with
      init_acc_av := current_acc_av cx cy cz
      prev_acc_av := current_acc_av cx cy cz } : data_info) := by
    simpa [accelSeeding] using hc
  simp [accel_cb, h2]

theorem accel_sentinel_collision_witness :
    accelSeeding (s_info_init true true) ∧
    rabs (current_acc_av 1000 1000 1000 - MAX_ACCEL_INIT_VALUE) <
      DOUBLE_COMPARIZON_THRESHOLD ∧
    accel_cb 3 3 3 ((accel_cb 1000 1000 1000 (s_info_init true true)).1) =
      ({ (accel_cb 1000 1000 1000 (s_info_init true true)).1 with
          init_acc_av := current_acc_av 3 3 3,
          prev_acc_av := current_acc_av 3 3 3 }, []) := by
  have h1 := accelSeeding_init true true
  have h2 : rabs (current_acc_av 1000 1000 1000 - MAX_ACCEL_INIT_VALUE) <
      DOUBLE_COMPARIZON_THRESHOLD := by
    norm_num [current_acc_av, rabs, MAX_ACCEL_INIT_VALUE, DOUBLE_COMPARIZON_THRESHOLD]
  exact ⟨h1, h2, accel_sentinel_collision _ 1000 1000 1000 3 3 3 h1 h2⟩

theorem accelInv_after (x y z : ℚ) (s : data_info) : accelInv (accel_cb x y z s).1 := by
  unfold accelInv
  by_cases h : accelSeeding s
  · simp [accel_cb, h]
  · by_cases hd : (s.prev_acc_av > s.init_acc_av ∧
        s.init_acc_av - current_acc_av x y z > TRESHOLD)
    · intro hs
      simp [accel_cb, h, hd] at hs
    · intro hs
      simp [accel_cb, h, hd] at hs

theorem accelInv_iter (es : List (ℚ × ℚ × ℚ)) :
    ∀ s : data_info, accelInv s → accelInv (accel_iter s es) := by
  induction es with
  | nil => intro s h; exact h
  | cons e es ih =>
      intro s h
      simp only [accel_iter]
      exact ih _ (accelInv_after e.1 e.2.1 e.2.2 s)

/-- C4: once a calibration sample has seeded the baseline, every later
sample registers a step (steps_count incremented and the step observer
notified) exactly when prev_acc_av > init_acc_av and
init_acc_av minus the current average exceeds TRESHOLD, and in every
case prev_acc_av is then set to the current average. -/
theorem accel_detection_rule (s : data_info) (cal : ℚ × ℚ × ℚ)
    (xs : List (ℚ × ℚ × ℚ)) (x y z : ℚ) (h : accelSeeding s) :
    let s' := accel_iter (accel_cb cal.1 cal.2.1 cal.2.2 s).1 xs
    ((accel_cb x y z s').1.steps_count = s'.steps_count + 1 ↔
      (s'.prev_acc_av > s'.init_acc_av ∧
        s'.init_acc_av - current_acc_av x y z > TRESHOLD)) ∧
    ((accel_cb x y z s').2 = [Notif.steps (s'.steps_count + 1)] ↔
      (s'.prev_acc_av > s'.init_acc_av ∧
        s'.init_acc_av - current_acc_av x y z > TRESHOLD)) ∧
    (accel_cb x y z s').1.prev_acc_av = current_acc_av x y z := by
  intro s'
  have hinv : accelInv s' :=
    accelInv_iter xs _ (accelInv_after cal.1 cal.2.1 cal.2.2 s)
  by_cases hs : accelSeeding s'
  · have hpe : s'.prev_acc_av = s'.init_acc_av := hinv hs
    have hnr : ¬(s'.prev_acc_av > s'.init_acc_av ∧
        s'.init_acc_av - current_acc_av x y z > TRESHOLD) := by
      rintro ⟨h1, _⟩
      rw [hpe] at h1
      exact lt_irrefl _ h1
    have hr : accel_cb x y z s' =
        ({ s' with
            init_acc_av := current_acc_av x y z
            prev_acc_av := current_acc_av x y z }, []) := by
      simp [accel_cb, hs]
    refine ⟨iff_of_false ?_ hnr, iff_of_false ?_ hnr, ?_⟩ <;> rw [hr] <;> simp
  · by_cases hd : (s'.prev_acc_av > s'.init_acc_av ∧
        s'.init_acc_av - current_acc_av x y z > TRESHOLD)
    · have hr : accel_cb x y z s' =
          ({ s' with
              steps_count := s'.steps_count + 1
              prev_acc_av := current_acc_av x y z },
            [Notif.steps (s'.steps_count + 1)]) := by
        simp [accel_cb, hs, hd]
      refine ⟨iff_of_true ?_ hd, iff_of_true ?_ hd, ?_⟩ <;> rw [hr]
    · have hr : accel_cb x y z s' =
          ({ s' with prev_acc_av := current_acc_av x y z }, []) := by
        simp [accel_cb, hs, hd]
      refine ⟨iff_of_false ?_ hd, iff_of_false ?_ hd, ?_⟩ <;> rw [hr] <;> simp

theorem accel_detection_rule_witness :
    accelSeeding (s_info_init true true) ∧
    (let s' := accel_iter (accel_cb 3 3 3 (s_info_init true true)).1 []
     ((accel_cb 9 9 9 s').1.steps_count = s'.steps_count + 1 ↔
       (s'.prev_acc_av > s'.init_acc_av ∧
         s'.init_acc_av - current_acc_av 9 9 9 > TRESHOLD)) ∧
     ((accel_cb 9 9 9 s').2 = [Notif.steps (s'.steps_count + 1)] ↔
       (s'.prev_acc_av > s'.init_acc_av ∧
         s'.init_acc_av - current_acc_av 9 9 9 > TRESHOLD)) ∧
     (accel_cb 9 9 9 s').1.prev_acc_av = current_acc_av 9 9 9) := by
  have h := accelSeeding_init true true
  exact ⟨h, accel_detection_rule (s_info_init true true) (3, 3, 3) [] 9 9 9 h⟩

/-- C7: a non-calibration position event whose distance computation
reports a platform error is dropped atomically: the state (in
particular total_distance, prev_latitude and prev_longitude) is
unchanged and no observer is notified. -/
theorem pos_error_drop (dist : DistFn) (w la lo now : ℚ) (s : data_info)
    (h : ¬posSeeding s)
    (hd : dist la lo s.prev_latitude s.prev_longitude = none) :
    pos_updated_cb dist w la lo now s = (s, []) := by
  simp [pos_updated_cb, h, hd]

theorem pos_error_drop_witness :
    ¬posSeeding ({ s_info_init true true with
      prev_latitude := 5
      prev_longitude := 6 } : data_info) ∧
    distNone 1 2 5 6 = none ∧
    pos_updated_cb distNone 70 1 2 3 ({ s_info_init true true with
      prev_latitude := 5
      prev_longitude := 6 } : data_info) =
      (({ s_info_init true true with
        prev_latitude := 5
        prev_longitude := 6 } : data_info), []) := by
  have h : ¬posSeeding ({ s_info_init true true with
      prev_latitude := 5
      prev_longitude := 6 } : data_info) :=
    not_posSeeding_of_le (by norm_num)
  exact ⟨h, rfl, pos_error_drop distNone 70 1 2 3 _ h rfl⟩

/-- C9, counterexample: a second press of Start after 500 accumulated
meters and zero steps re-emits the current total_distance 500, not 0:
the state after c9_trace has steps_count 0, and the start event then
emits steps 0, position 500 and fare 0, with no position 0
notification. -/
theorem start_reemission_not_zero :
    (machine_run dist500 70 (s_info_init true true) c9_trace).steps_count = 0 ∧
    (machine_step dist500 70 (machine_run dist500 70 (s_info_init true true) c9_trace)
      (Ev.start false 3)).2 =
      [Notif.steps 0, Notif.position 500, Notif.fare 0] ∧
    ¬(Notif.position 0 ∈
      (machine_step dist500 70 (machine_run dist500 70 (s_info_init true true) c9_trace)
        (Ev.start false 3)).2) := by
  refine ⟨?_, ?_, ?_⟩ <;>
    norm_num [c9_trace, machine_run, machine_step, data_tracking_start,
      pos_updated_cb, count_fare, calorieBurner, s_info_init, dist500,
      posSeeding, accelSeeding, rabs, LAT_UNINITIATED, LONG_UNINITIATED, DBL_MAX,
      DOUBLE_COMPARIZON_THRESHOLD, MAX_ACCEL_INIT_VALUE] <;>
    exact ⟨by simp, by simp⟩

/-- C9 (amended): data_tracking_start with steps_count zero immediately
re-emits steps 0, the current total_distance (zero exactly when the
counter was previously reset) and the literal fare 0, in that order;
with steps_count nonzero nothing is emitted. -/
theorem start_reemission (r : Bool) (now : ℚ) (s : data_info) :
    (data_tracking_start r now s).2 =
      if s.steps_count = 0 then
        [Notif.steps 0, Notif.position s.total_distance, Notif.fare 0]
      else [] := by
  by_cases hl : s.location_manager <;> by_cases h0 : s.steps_count = 0 <;>
    simp [data_tracking_start, hl, h0]

/-- C8: a position event and an acceleration event each leave
total_distance and steps_count at or above their previous values,
provided the platform distance oracle only reports nonnegative
distances. -/
theorem counters_monotone (dist : DistFn) (w : ℚ) (s : data_info)
    (la lo now x y z : ℚ)
    (h : ∀ a b c d q, dist a b c d = some q → 0 ≤ q) :
    (s.total_distance ≤ (machine_step dist w s (Ev.pos la lo now)).1.total_distance ∧
     s.steps_count ≤ (machine_step dist w s (Ev.pos la lo now)).1.steps_count) ∧
    (s.total_distance ≤ (machine_step dist w s (Ev.accel x y z)).1.total_distance ∧
     s.steps_count ≤ (machine_step dist w s (Ev.accel x y z)).1.steps_count) := by
  constructor
  · by_cases hl : s.location_manager
    · by_cases hp : posSeeding s
      · simp [machine_step, hl, pos_updated_cb, if_pos hp]
      · cases hd : dist la lo s.prev_latitude s.prev_longitude with
        | none => simp [machine_step, hl, pos_updated_cb, hp, hd]
        | some q =>
            have hq := h _ _ _ _ _ hd
            simp [machine_step, hl, pos_updated_cb, hp, hd, calorieBurner]
            linarith
    · simp [machine_step, hl]
  · by_cases ha : s.acceleration_listener
    · by_cases hs : accelSeeding s
      · simp [machine_step, ha, accel_cb, if_pos hs]
      · by_cases hd : (s.prev_acc_av > s.init_acc_av ∧
            s.init_acc_av - current_acc_av x y z > TRESHOLD)
        · simp [machine_step, ha, accel_cb, hs, if_pos hd]
        · simp [machine_step, ha, accel_cb, hs, if_neg hd]
    · simp [machine_step, ha]

theorem counters_monotone_witness :
    (∀ a b c d q, dist100 a b c d = some q → 0 ≤ q) ∧
    (((s_info_init true true).total_distance ≤
        (machine_step dist100 70 (s_info_init true true) (Ev.pos 1 2 3)).1.total_distance ∧
      (s_info_init true true).steps_count ≤
        (machine_step dist100 70 (s_info_init true true) (Ev.pos 1 2 3)).1.steps_count) ∧
     ((s_info_init true true).total_distance ≤
        (machine_step dist100 70 (s_info_init true true) (Ev.accel 4 5 6)).1.total_distance ∧
      (s_info_init true true).steps_count ≤
        (machine_step dist100 70 (s_info_init true true) (Ev.accel 4 5 6)).1.steps_count)) := by
  have h : ∀ a b c d q, dist100 a b c d = some q → 0 ≤ q := by
    intro a b c d q hq
    injection hq with hh
    rw [← hh]
    norm_num
  exact ⟨h, counters_monotone dist100 70 (s_info_init true true) 1 2 3 4 5 6 h⟩

theorem machine_run_pos_sum (dist : DistFn) (w : ℚ) (qs : List (ℚ × ℚ)) :
    ∀ (s : data_info) (p : ℚ × ℚ),
      s.location_manager = true →
      s.prev_latitude = p.1 → s.prev_longitude = p.2 →
      rabs p.1 ≤ 90 →
      (∀ q ∈ qs, validCoord q) →
      (∀ a b c d, (dist a b c d).isSome = true) →
      (machine_run dist w s (posEvents qs)).total_distance =
        s.total_distance + pairSum dist p qs := by
  induction qs with
  | nil =>
      intro s p _ _ _ _ _ _
      simp [posEvents, machine_run, pairSum]
  | cons q qs ih =>
      intro s p hl h1 h2 hp hv hsome
      obtain ⟨d, hd⟩ := Option.isSome_iff_exists.mp (hsome q.1 q.2 p.1 p.2)
      have hd' : dist q.1 q.2 s.prev_latitude s.prev_longitude = some d := by
        rw [h1, h2]; exact hd
      have hns : ¬posSeeding s :=
        not_posSeeding_of_le
          (by rw [h1]; exact le_trans (le_rabs_self p.1) (le_trans hp (by norm_num)))
      have hstep : (machine_step dist w s (Ev.pos q.1 q.2 0)).1 =
          (calorieBurner w 0 ({ s with
              total_distance := s.total_distance + d
              prev_latitude := q.1
              prev_longitude := q.2 } : data_info)).1 := by
        simp [machine_step, hl, pos_updated_cb, hns, hd']
      have hrun : machine_run dist w s (posEvents (q :: qs)) =
          machine_run dist w (machine_step dist w s (Ev.pos q.1 q.2 0)).1
            (posEvents qs) := by
        simp [posEvents, machine_run]
      rw [hrun, hstep]
      rw [ih ((calorieBurner w 0 ({ s with
            total_distance := s.total_distance + d
            prev_latitude := q.1
            prev_longitude := q.2 } : data_info)).1) q hl rfl rfl
        ((hv q (List.mem_cons_self q qs)).1)
        (fun r hr => hv r (List.mem_cons_of_mem _ hr)) hsome]
      have htot : (calorieBurner w 0 ({ s with
          total_distance := s.total_distance + d
          prev_latitude := q.1
          prev_longitude := q.2 } : data_info)).1.total_distance =
          s.total_distance + d := rfl
      rw [htot]
      simp only [pairSum, hd, Option.getD_some]
      ring

/-- C5 (amended): within a session that begins with prev_position at
the uninitialized sentinel (so, the first session: stop() never
restores the sentinel), total_distance after processing a sequence of
valid fixes equals its initial value plus the sum of the
platform-reported distances between consecutive fixes; the first
(seeding) fix contributes nothing.  After a stop() the first fix of the
next session additionally contributes the distance from the last stored position of the
previous session. -/
theorem pos_sum_from_sentinel (dist : DistFn) (w : ℚ) (s : data_info)
    (p : ℚ × ℚ) (ps : List (ℚ × ℚ))
    (hl : s.location_manager = true) (h : posSeeding s)
    (hv : ∀ q ∈ p :: ps, validCoord q)
    (hsome : ∀ a b c d, (dist a b c d).isSome = true) :
    (machine_run dist w s (posEvents (p :: ps))).total_distance =
      s.total_distance + pairSum dist p ps := by
  have hstep : (machine_step dist w s (Ev.pos p.1 p.2 0)).1 =
      { s with prev_latitude := p.1, prev_longitude := p.2 } := by
    simp [machine_step, hl, pos_updated_cb, if_pos h]
  have hrun : machine_run dist w s (posEvents (p :: ps)) =
      machine_run dist w (machine_step dist w s (Ev.pos p.1 p.2 0)).1
        (posEvents ps) := by
    simp [posEvents, machine_run]
  rw [hrun, hstep]
  exact machine_run_pos_sum dist w ps _ p hl rfl rfl
    ((hv p (List.mem_cons_self p ps)).1)
    (fun r hr => hv r (List.mem_cons_of_mem _ hr)) hsome

theorem pos_sum_from_sentinel_witness :
    (s_info_init true true).location_manager = true ∧
    posSeeding (s_info_init true true) ∧
    (∀ q ∈ [((0:ℚ), (0:ℚ)), ((0:ℚ), (1:ℚ))], validCoord q) ∧
    (∀ a b c d, (distAbs a b c d).isSome = true) ∧
    (machine_run distAbs 70 (s_info_init true true)
        (posEvents [(0, 0), (0, 1)])).total_distance =
      (s_info_init true true).total_distance + pairSum distAbs (0, 0) [(0, 1)] := by
  have h1 : (s_info_init true true).location_manager = true := rfl
  have h2 := posSeeding_init true true
  have h3 : ∀ q ∈ [((0:ℚ), (0:ℚ)), ((0:ℚ), (1:ℚ))], validCoord q := by
    norm_num [validCoord, rabs]
  have h4 : ∀ a b c d, (distAbs a b c d).isSome = true := fun a b c d => rfl
  exact ⟨h1, h2, h3, h4,
    pos_sum_from_sentinel distAbs 70 (s_info_init true true) (0, 0) [(0, 1)]
      h1 h2 h3 h4⟩

theorem pos_updated_cb_loc (dist : DistFn) (w la lo now : ℚ) (s : data_info) :
    (pos_updated_cb dist w la lo now s).1.location_manager =
      s.location_manager := by
  by_cases h : posSeeding s
  · simp [pos_updated_cb, if_pos h]
  · cases hd : dist la lo s.prev_latitude s.prev_longitude <;>
      simp [pos_updated_cb, h, hd, calorieBurner]

theorem accel_cb_loc (x y z : ℚ) (s : data_info) :
    (accel_cb x y z s).1.location_manager = s.location_manager := by
  by_cases h : accelSeeding s
  · simp [accel_cb, if_pos h]
  · by_cases hd : (s.prev_acc_av > s.init_acc_av ∧
        s.init_acc_av - current_acc_av x y z > TRESHOLD) <;>
      simp [accel_cb, h, hd]

theorem accel_cb_total (x y z : ℚ) (s : data_info) :
    (accel_cb x y z s).1.total_distance = s.total_distance := by
  by_cases h : accelSeeding s
  · simp [accel_cb, if_pos h]
  · by_cases hd : (s.prev_acc_av > s.init_acc_av ∧
        s.init_acc_av - current_acc_av x y z > TRESHOLD) <;>
      simp [accel_cb, h, hd]

theorem data_tracking_start_fst (r : Bool) (now : ℚ) (s : data_info) :
    (data_tracking_start r now s).1 =
      { (if s.location_manager then s else { s with location_manager := r }) with
          start_time := now } := by
  by_cases hA : s.location_manager <;> by_cases hB : s.steps_count = 0 <;>
    simp [data_tracking_start, hA, hB]

theorem data_acceleration_sensor_stop_total (s : data_info) :
    (data_acceleration_sensor_stop s).total_distance = s.total_distance := by
  unfold data_acceleration_sensor_stop
  split <;> rfl

theorem data_acceleration_sensor_stop_loc (s : data_info) :
    (data_acceleration_sensor_stop s).location_manager = s.location_manager := by
  unfold data_acceleration_sensor_stop
  split <;> rfl

theorem machine_run_loc_inv (dist : DistFn) (w : ℚ) (evs : List Ev) :
    ∀ s : data_info, (s.total_distance ≠ 0 → s.location_manager = true) →
      ((machine_run dist w s evs).total_distance ≠ 0 →
        (machine_run dist w s evs).location_manager = true) := by
  induction evs with
  | nil => intro s h; exact h
  | cons e es ih =>
      intro s h
      simp only [machine_run]
      apply ih
      cases e with
      | start r now =>
          by_cases hl : s.location_manager
          · intro _
            simp [machine_step, data_tracking_start_fst, hl]
          · intro hne
            simp [machine_step, data_tracking_start_fst, hl] at hne
            exact absurd (h hne) hl
      | stop =>
          by_cases hl : s.location_manager
          · intro hne
            simp [machine_step, data_tracking_stop, data_distance_tracker_stop, hl,
              data_acceleration_sensor_stop_total] at hne
          · intro hne
            simp [machine_step, data_tracking_stop, data_distance_tracker_stop, hl,
              data_acceleration_sensor_stop_total,
              data_acceleration_sensor_stop_loc] at hne ⊢
            exact absurd (h hne) hl
      | pos la lo now =>
          by_cases hl : s.location_manager
          · intro _
            simp [machine_step, hl, pos_updated_cb_loc]
          · intro hne
            simp [machine_step, hl] at hne
            exact absurd (h hne) hl
      | accel x y z =>
          by_cases ha : s.acceleration_listener
          · intro hne
            simp [machine_step, ha, accel_cb_total] at hne
            simp [machine_step, ha, accel_cb_loc]
            exact h hne
          · intro hne
            simp [machine_step, ha] at hne ⊢
            exact h hne

/-- C6: for every reachable state, stop() writes a SessionRecord to the
persistence sink exactly when steps_count and total_distance are both
strictly positive at stop time. -/
theorem save_record_guard (dist : DistFn) (w : ℚ) (locOk accelOk : Bool)
    (evs : List Ev) :
    hasDbInsert (data_tracking_stop
        (machine_run dist w (s_info_init locOk accelOk) evs)).2 = true ↔
      ((machine_run dist w (s_info_init locOk accelOk) evs).steps_count > 0 ∧
       (machine_run dist w (s_info_init locOk accelOk) evs).total_distance > 0) := by
  have hinv : (machine_run dist w (s_info_init locOk accelOk) evs).total_distance ≠ 0 →
      (machine_run dist w (s_info_init locOk accelOk) evs).location_manager = true :=
    machine_run_loc_inv dist w evs (s_info_init locOk accelOk)
      (fun hne => absurd rfl hne)
  set s := machine_run dist w (s_info_init locOk accelOk) evs with hs
  by_cases hl : s.location_manager
  · have h2 : (data_tracking_stop s).2 = data_save_db s := by
      simp [data_tracking_stop, data_distance_tracker_stop, hl]
    rw [h2]
    unfold data_save_db
    by_cases hg : (s.steps_count > 0 ∧ s.total_distance > 0)
    · simp [if_pos hg, hasDbInsert, count_fare, hg]
    · simp [if_neg hg, hasDbInsert, count_fare, hg]
  · have h0 : s.total_distance = 0 := by
      by_contra hne
      exact hl (hinv hne)
    have h2 : (data_tracking_stop s).2 = [] := by
      simp [data_tracking_stop, data_distance_tracker_stop, hl]
    rw [h2]
    simp [hasDbInsert, h0]

/-- C5, counterexample: in the second session of c5_trace the fixes are
(0,5) and (0,9); the sum of platform distances between consecutive
fixes of that session is 4, but the code accumulates 8 because the
first fix of the session is measured against the last position of the previous
session (0,1) instead of seeding. -/
theorem session_sum_after_stop_mismatch :
    (machine_run distAbs 70 (s_info_init true true) c5_trace).total_distance = 8 ∧
    pairSum distAbs (0, 5) [(0, 9)] = 4 ∧
    ¬((machine_run distAbs 70 (s_info_init true true) c5_trace).total_distance =
      pairSum distAbs (0, 5) [(0, 9)]) := by
  refine ⟨?_, ?_, ?_⟩ <;>
    norm_num [c5_trace, machine_run, machine_step, data_tracking_start,
      data_tracking_stop, data_distance_tracker_stop, data_acceleration_sensor_stop,
      data_save_db, pos_updated_cb, count_fare, calorieBurner, pairSum, s_info_init,
      distAbs, posSeeding, accelSeeding, rabs, LAT_UNINITIATED, LONG_UNINITIATED,
      DBL_MAX, DOUBLE_COMPARIZON_THRESHOLD, MAX_ACCEL_INIT_VALUE]

end AvoidRickshaw
